import Mathlib

/-!
Shallow embedding of the ESP32 AQI edge-node firmware
(`src/esp32_aqi_node/esp32_aqi_node.ino`) and proofs about its
control loop, calibration logic, failsafe controller and command handling.

Modelling conventions:
* C `int` values (analog readings, offsets, fan duty) are `Int`.
* `unsigned long` / `millis()` values are `Nat` reduced modulo `2^32`
  (the ESP32 is a 32-bit target); the unsigned subtraction used in the
  firmware's elapsed-time guards is `usub32`.
* The DHT11 float readings only matter through their NaN failure mode, so a
  reading is `Option Int`: `none` models a NaN return from
  `dht.readTemperature()` / `dht.readHumidity()`, `some v` a valid value.
* A decoded inbound JSON document is `CommandDoc`; a payload on which
  `deserializeJson` fails is `none : Option CommandDoc`.
* Hardware side effects (`analogWrite`, `digitalWrite`, LCD prints, serial
  prints) are modelled through the state fields that mirror them
  (`currentFanSpeed`, `mlLed`, `wifiLed`); fresh `analogRead` samples and the
  WiFi status are inputs supplied by the environment.
-/

namespace AqiNode

/-- `2^32`, the modulus of `unsigned long` arithmetic on the ESP32 target. -/
def U32 : Nat := 4294967296

/-- Unsigned 32-bit subtraction `a - b` as the firmware's
`currentMillis - lastX` guard computes it. -/
def usub32 (a b : Nat) : Nat := (a % U32 + (U32 - b % U32)) % U32

/-- `const int MQ9_FAILSAFE_THRESHOLD = 3000;` (line 45). -/
def MQ9_FAILSAFE_THRESHOLD : Int := 3000

/-- `const unsigned long sensorInterval = 5000;` (line 58). -/
def sensorInterval : Nat := 5000

/-- `const unsigned long screenInterval = 3000;` (line 61). -/
def screenInterval : Nat := 3000

/-- `const unsigned long wifiRetryInterval = 15000;` (line 66). -/
def wifiRetryInterval : Nat := 15000

/-- Arduino's `constrain(amt, low, high)` macro:
`(amt < low) ? low : ((amt > high) ? high : amt)`. -/
def constrain (amt low high : Int) : Int :=
  if amt < low then low else if amt > high then high else amt

/-- One fresh set of raw analog samples, one per gas/dust channel
(the results of the four `analogRead` calls). -/
structure RawReadings where
  mq135 : Int
  mq8 : Int
  mq9 : Int
  dust : Int
deriving DecidableEq, Repr

/-- The firmware's global mutable state (sections 3 of the sketch,
lines 56-82): sensor values, calibration offsets, fan duty, LED indicators,
display page index and the per-task `last...` timestamps. -/
structure DeviceState where
  mq135Val : Int
  mq8Val : Int
  mq9Val : Int
  dustVal : Int
  temperature : Int
  humidity : Int
  mq135Offset : Int
  mq8Offset : Int
  mq9Offset : Int
  dustOffset : Int
  currentFanSpeed : Int
  mlLed : Bool
  wifiLed : Bool
  currentScreen : Int
  lastSensorRead : Nat
  lastScreenChange : Nat
  lastWiFiRetry : Nat
deriving DecidableEq, Repr

/-- The state right after `setup()`: all sensor values and offsets zero,
fan off (`analogWrite(PIN_FAN_PWM, 0)`), both LEDs low, `currentScreen = 1`,
all timing variables zero (lines 56-82, 110-117). -/
def initialState : DeviceState :=
  { mq135Val := 0, mq8Val := 0, mq9Val := 0, dustVal := 0
    temperature := 0, humidity := 0
    mq135Offset := 0, mq8Offset := 0, mq9Offset := 0, dustOffset := 0
    currentFanSpeed := 0, mlLed := false, wifiLed := false
    currentScreen := 1
    lastSensorRead := 0, lastScreenChange := 0, lastWiFiRetry := 0 }

/-- `readAndSendSensors()` (lines 242-283): samples the four analog channels,
applies the calibration offsets floored at zero, and reads the DHT11,
retaining the previous temperature/humidity on a NaN result.  The outbound
telemetry frame has no effect on device state. -/
def readAndSendSensors (raw : RawReadings) (t h : Option Int)
    (s : DeviceState) : DeviceState :=
  { s with
    mq135Val := max 0 (raw.mq135 - s.mq135Offset)
    mq8Val := max 0 (raw.mq8 - s.mq8Offset)
    mq9Val := max 0 (raw.mq9 - s.mq9Offset)
    dustVal := max 0 (raw.dust - s.dustOffset)
    temperature := match t with | some v => v | none => s.temperature
    humidity := match h with | some v => v | none => s.humidity }

/-- `controlFailSafe()` (lines 288-302): if the stored calibrated MQ9 value
exceeds the hardcoded threshold, drive the fan at full duty and light the
alert LED; otherwise stop the fan and clear the LED. -/
def controlFailSafe (s : DeviceState) : DeviceState :=
  if s.mq9Val > MQ9_FAILSAFE_THRESHOLD then
    { s with currentFanSpeed := 255, mlLed := true }
  else
    { s with currentFanSpeed := 0, mlLed := false }

/-- `calibrateSensors()` (lines 405-435): takes one fresh raw sample per
channel, subtracts the clean-air floor of 200, floors each offset at zero,
and pushes `lastScreenChange` to `millis() + 2000` (unsigned, line 434).
`now` is the value `millis()` returns during the call. -/
def calibrateSensors (raw : RawReadings) (now : Nat)
    (s : DeviceState) : DeviceState :=
  let cleanAirFloor : Int := 200
  let o135 := raw.mq135 - cleanAirFloor
  let o8 := raw.mq8 - cleanAirFloor
  let o9 := raw.mq9 - cleanAirFloor
  let oDust := raw.dust - cleanAirFloor
  { s with
    mq135Offset := max 0 o135
    mq8Offset := max 0 o8
    mq9Offset := max 0 o9
    dustOffset := max 0 oDust
    lastScreenChange := (now + 2000) % U32 }

/-- A decoded inbound JSON command document: the optional `fan_speed`
integer field and the optional `command` string field. -/
structure CommandDoc where
  fanSpeed : Option Int
  command : Option String
deriving DecidableEq, Repr

/-- The fan-speed branch of the `WStype_TEXT` handler (lines 373-386): when
the decoded document carries a `fan_speed` field, constrain it to [0,255],
apply it as the duty, and set the alert LED iff the duty is positive. -/
def applyFanSpeed (fs : Option Int) (s : DeviceState) : DeviceState :=
  match fs with
  | some v =>
    let f := constrain v 0 255
    { s with currentFanSpeed := f, mlLed := decide (f > 0) }
  | none => s

/-- The calibration branch of the `WStype_TEXT` handler (lines 389-391):
when the decoded document carries `"command": "calibrate"`, run
`calibrateSensors` (with fresh samples `calRaw` at time `now`). -/
def applyCommand (cmd : Option String) (calRaw : RawReadings) (now : Nat)
    (s : DeviceState) : DeviceState :=
  match cmd with
  | some c => if c = "calibrate" then calibrateSensors calRaw now s else s
  | none => s

/-- The `WStype_TEXT` branch of `webSocketEvent` (lines 359-392).
`doc? = none` models a `deserializeJson` failure: the handler returns after
printing a diagnostic, mutating nothing.  Otherwise the fan-speed branch
runs first, then the calibration branch, as in the source. -/
def handleText (doc? : Option CommandDoc) (calRaw : RawReadings) (now : Nat)
    (s : DeviceState) : DeviceState :=
  match doc? with
  | none => s
  | some doc => applyCommand doc.command calRaw now (applyFanSpeed doc.fanSpeed s)

/-- The environment of one `loop()` iteration: the `millis()` value (as the
true elapsed milliseconds since boot; the firmware sees `now % 2^32`),
whether `WiFi.status() == WL_CONNECTED`, the analog samples and DHT readings
the sensor task would observe, and whether the WebSocket is connected. -/
structure LoopEnv where
  now : Nat
  wifiConnected : Bool
  raw : RawReadings
  dhtT : Option Int
  dhtH : Option Int
  wsConnected : Bool
deriving DecidableEq, Repr

/-- Task 1 of `loop()` (lines 206-209): run `readAndSendSensors` when at
least `sensorInterval` ms have elapsed since `lastSensorRead`. -/
def sensorPhase (e : LoopEnv) (s : DeviceState) : DeviceState :=
  if sensorInterval ≤ usub32 e.now s.lastSensorRead then
    readAndSendSensors e.raw e.dhtT e.dhtH
      { s with lastSensorRead := e.now % U32 }
  else s

/-- Task 2 of `loop()` (lines 212-216): toggle the display page when at
least `screenInterval` ms have elapsed since `lastScreenChange`. -/
def screenPhase (e : LoopEnv) (s : DeviceState) : DeviceState :=
  if screenInterval ≤ usub32 e.now s.lastScreenChange then
    { s with
      lastScreenChange := e.now % U32
      currentScreen := if s.currentScreen = 1 then 2 else 1 }
  else s

/-- Whether Task 3's reconnect branch fires this iteration (lines 224-233):
disconnected and at least `wifiRetryInterval` ms since `lastWiFiRetry`.
The sensor and screen tasks never write `lastWiFiRetry`, so the guard can be
evaluated against the iteration's initial state. -/
def retryFires (e : LoopEnv) (s : DeviceState) : Bool :=
  !e.wifiConnected && decide (wifiRetryInterval ≤ usub32 e.now s.lastWiFiRetry)

/-- The reconnect branch inside Task 3 (lines 224-233): when at least
`wifiRetryInterval` ms have elapsed since `lastWiFiRetry`, record the new
timestamp (the `WiFi.disconnect`/`WiFi.begin` calls are the attempt itself
and touch no modelled state). -/
def loopRetry (e : LoopEnv) (s3 : DeviceState) : DeviceState :=
  if wifiRetryInterval ≤ usub32 e.now s3.lastWiFiRetry then
    { s3 with lastWiFiRetry := e.now % U32 }
  else s3

/-- Task 3 of `loop()` (lines 218-236): while WiFi is down, clear the WiFi
LED, run the failsafe, and rate-limit reconnect attempts; while up, light
the WiFi LED and do nothing else. -/
def loopTask3 (e : LoopEnv) (s2 : DeviceState) : DeviceState :=
  if e.wifiConnected then
    { s2 with wifiLed := true }
  else
    loopRetry e (controlFailSafe { s2 with wifiLed := false })

/-- One iteration of `loop()` (lines 199-237) after the `webSocket.loop()`
pump: sensor task, screen task, then the failsafe/reconnect block gated on
WiFi connectivity.  Inbound WebSocket events are modelled separately by
`handleText` since they are delivered by the pump, not the periodic tasks. -/
def loopStep (e : LoopEnv) (s : DeviceState) : DeviceState :=
  loopTask3 e (screenPhase e (sensorPhase e s))

/-- The `millis()` values of the iterations of a trace at which the WiFi
reconnect attempt (`WiFi.disconnect(true); WiFi.begin(...)`) fires. -/
def attemptTimes : List LoopEnv → DeviceState → List Nat
  | [], _ => []
  | e :: es, s =>
    let rest := attemptTimes es (loopStep e s)
    if retryFires e s then e.now :: rest else rest

/-- The duty-range property `currentFanSpeed ∈ [0, 255]`. -/
def dutyInv (s : DeviceState) : Prop :=
  0 ≤ s.currentFanSpeed ∧ s.currentFanSpeed ≤ 255

/-- A concrete three-iteration offline trace: `millis()` 16000, 20000 and
40000, WiFi down throughout. -/
def retryDemoEnvs : List LoopEnv :=
  [{ now := 16000, wifiConnected := false, raw := ⟨0, 0, 0, 0⟩,
      dhtT := none, dhtH := none, wsConnected := false },
    { now := 20000, wifiConnected := false, raw := ⟨0, 0, 0, 0⟩,
      dhtT := none, dhtH := none, wsConnected := false },
    { now := 40000, wifiConnected := false, raw := ⟨0, 0, 0, 0⟩,
      dhtT := none, dhtH := none, wsConnected := false }]

/-! ## Helper lemmas on the unsigned elapsed-time arithmetic -/

/-- Reducing the subtrahend modulo `2^32` first, as the firmware's stored
timestamps do, does not change the unsigned difference. -/
theorem usub32_mod_right (a b : Nat) : usub32 a (b % U32) = usub32 a b := by
  unfold usub32 U32
  omega

/-- When the true times are ordered and less than one wrap apart, the
unsigned 32-bit difference is the true difference. -/
theorem usub32_eq_of_lt (a b : Nat) (hba : b ≤ a) (hw : a - b < U32) :
    usub32 a b = a - b := by
  unfold usub32 U32 at *
  omega

/-- If the firmware's elapsed-time guard `currentMillis - last >= iv` passes
with `iv ≤ 2^32` and time is monotone, the true separation is at least
`iv`: either no wrap occurred and the unsigned difference is exact, or a
full wrap of `2^32 ≥ iv` milliseconds elapsed. -/
theorem usub32_guard_sound (a b iv : Nat) (hba : b ≤ a) (hiv : iv ≤ U32)
    (hg : iv ≤ usub32 a b) : b + iv ≤ a := by
  rcases Nat.lt_or_ge (a - b) U32 with hlt | hge
  · rw [usub32_eq_of_lt a b hba hlt] at hg
    omega
  · omega

/-! ## Theorems about the firmware -/

/-- C3: in every sensor-read cycle, each gas/dust channel with raw reading
`raw[c] ≥ 0` and stored offset `offset[c] ≥ 0` gets the stored calibrated
value `max 0 (raw[c] - offset[c])`, hence nonnegative, while temperature and
humidity pass through without offset correction. -/
theorem calibrated_values_floor (raw : RawReadings) (t h : Option Int)
    (s : DeviceState)
    (_hraw : 0 ≤ raw.mq135 ∧ 0 ≤ raw.mq8 ∧ 0 ≤ raw.mq9 ∧ 0 ≤ raw.dust)
    (_hoff : 0 ≤ s.mq135Offset ∧ 0 ≤ s.mq8Offset ∧ 0 ≤ s.mq9Offset ∧
      0 ≤ s.dustOffset) :
    ((readAndSendSensors raw t h s).mq135Val =
        max 0 (raw.mq135 - s.mq135Offset) ∧
      (readAndSendSensors raw t h s).mq8Val = max 0 (raw.mq8 - s.mq8Offset) ∧
      (readAndSendSensors raw t h s).mq9Val = max 0 (raw.mq9 - s.mq9Offset) ∧
      (readAndSendSensors raw t h s).dustVal =
        max 0 (raw.dust - s.dustOffset)) ∧
    (0 ≤ (readAndSendSensors raw t h s).mq135Val ∧
      0 ≤ (readAndSendSensors raw t h s).mq8Val ∧
      0 ≤ (readAndSendSensors raw t h s).mq9Val ∧
      0 ≤ (readAndSendSensors raw t h s).dustVal) ∧
    (readAndSendSensors raw t h s).temperature = t.getD s.temperature ∧
    (readAndSendSensors raw t h s).humidity = h.getD s.humidity := by
  refine ⟨⟨rfl, rfl, rfl, rfl⟩,
    ⟨le_max_left 0 _, le_max_left 0 _, le_max_left 0 _, le_max_left 0 _⟩,
    ?_, ?_⟩
  · cases t <;> rfl
  · cases h <;> rfl

/-- Witness for C3 at a concrete cycle: raw MQ9 3500 against offset 300
yields calibrated `max 0 (3500 - 300) = 3200`. -/
theorem calibrated_values_floor_witness :
    (readAndSendSensors ⟨4095, 120, 3500, 50⟩ (some 25) none
      { initialState with mq9Offset := 300 }).mq9Val =
      max 0 (3500 - 300) :=
  (calibrated_values_floor ⟨4095, 120, 3500, 50⟩ (some 25) none
    { initialState with mq9Offset := 300 } (by decide) (by decide)).1.2.2.1

/-- C4: a recalibration sets each channel offset to
`max 0 (raw_at_calibration - 200)`, so every offset is nonnegative; on the
concrete samples {mq135 250, mq8 210, mq9 300, dust 190} the new offsets
are {50, 10, 100, 0}. -/
theorem recalibrate_offsets :
    (∀ (raw : RawReadings) (now : Nat) (s : DeviceState),
      ((calibrateSensors raw now s).mq135Offset = max 0 (raw.mq135 - 200) ∧
        (calibrateSensors raw now s).mq8Offset = max 0 (raw.mq8 - 200) ∧
        (calibrateSensors raw now s).mq9Offset = max 0 (raw.mq9 - 200) ∧
        (calibrateSensors raw now s).dustOffset = max 0 (raw.dust - 200)) ∧
      (0 ≤ (calibrateSensors raw now s).mq135Offset ∧
        0 ≤ (calibrateSensors raw now s).mq8Offset ∧
        0 ≤ (calibrateSensors raw now s).mq9Offset ∧
        0 ≤ (calibrateSensors raw now s).dustOffset)) ∧
    ((calibrateSensors ⟨250, 210, 300, 190⟩ 0 initialState).mq135Offset = 50 ∧
      (calibrateSensors ⟨250, 210, 300, 190⟩ 0 initialState).mq8Offset = 10 ∧
      (calibrateSensors ⟨250, 210, 300, 190⟩ 0 initialState).mq9Offset = 100 ∧
      (calibrateSensors ⟨250, 210, 300, 190⟩ 0 initialState).dustOffset = 0) := by
  constructor
  · intro raw now s
    exact ⟨⟨rfl, rfl, rfl, rfl⟩,
      le_max_left 0 _, le_max_left 0 _, le_max_left 0 _, le_max_left 0 _⟩
  · exact ⟨by decide, by decide, by decide, by decide⟩

/-- C6: an inbound payload on which decoding fails mutates no device state
at all — the handler returns the state unchanged. -/
theorem malformed_payload_dropped (calRaw : RawReadings) (now : Nat)
    (s : DeviceState) : handleText none calRaw now s = s := rfl

/-- C9: in a sensor-read cycle, a NaN reading from the DHT11 (modelled as
`none`) leaves the previously stored temperature/humidity unchanged, while
a valid reading replaces the stored value. -/
theorem dht_retention (raw : RawReadings) (t h : Option Int)
    (s : DeviceState) :
    (t = none → (readAndSendSensors raw t h s).temperature = s.temperature) ∧
    (h = none → (readAndSendSensors raw t h s).humidity = s.humidity) ∧
    (∀ v, t = some v → (readAndSendSensors raw t h s).temperature = v) ∧
    (∀ v, h = some v → (readAndSendSensors raw t h s).humidity = v) := by
  refine ⟨fun ht => ?_, fun hh => ?_, fun v ht => ?_, fun v hh => ?_⟩ <;>
    subst_vars <;> rfl

/-- C10: `calibrateSensors` writes only the four offsets and the
display-toggle timestamp: calibrated readings, temperature, humidity, fan
duty, both LED indicators, the display page index and the other task
timestamps are untouched, and `lastScreenChange` becomes
`(millis() + 2000) mod 2^32`. -/
theorem recalibrate_frame (raw : RawReadings) (now : Nat) (s : DeviceState) :
    (calibrateSensors raw now s).mq135Val = s.mq135Val ∧
    (calibrateSensors raw now s).mq8Val = s.mq8Val ∧
    (calibrateSensors raw now s).mq9Val = s.mq9Val ∧
    (calibrateSensors raw now s).dustVal = s.dustVal ∧
    (calibrateSensors raw now s).temperature = s.temperature ∧
    (calibrateSensors raw now s).humidity = s.humidity ∧
    (calibrateSensors raw now s).currentFanSpeed = s.currentFanSpeed ∧
    (calibrateSensors raw now s).mlLed = s.mlLed ∧
    (calibrateSensors raw now s).wifiLed = s.wifiLed ∧
    (calibrateSensors raw now s).currentScreen = s.currentScreen ∧
    (calibrateSensors raw now s).lastSensorRead = s.lastSensorRead ∧
    (calibrateSensors raw now s).lastWiFiRetry = s.lastWiFiRetry ∧
    (calibrateSensors raw now s).lastScreenChange = (now + 2000) % U32 :=
  ⟨rfl, rfl, rfl, rfl, rfl, rfl, rfl, rfl, rfl, rfl, rfl, rfl, rfl⟩

/-! ## Frame lemmas for the loop phases -/

/-- The sensor task never touches the fan duty, the LEDs, the display page
or the other tasks' timestamps. -/
theorem sensorPhase_frame (e : LoopEnv) (s : DeviceState) :
    (sensorPhase e s).currentFanSpeed = s.currentFanSpeed ∧
    (sensorPhase e s).mlLed = s.mlLed ∧
    (sensorPhase e s).lastWiFiRetry = s.lastWiFiRetry ∧
    (sensorPhase e s).lastScreenChange = s.lastScreenChange ∧
    (sensorPhase e s).currentScreen = s.currentScreen := by
  unfold sensorPhase readAndSendSensors
  split <;> exact ⟨rfl, rfl, rfl, rfl, rfl⟩

/-- The screen task never touches the sensor values, the fan duty, the LEDs
or the other tasks' timestamps. -/
theorem screenPhase_frame (e : LoopEnv) (s : DeviceState) :
    (screenPhase e s).mq9Val = s.mq9Val ∧
    (screenPhase e s).currentFanSpeed = s.currentFanSpeed ∧
    (screenPhase e s).mlLed = s.mlLed ∧
    (screenPhase e s).lastWiFiRetry = s.lastWiFiRetry ∧
    (screenPhase e s).lastSensorRead = s.lastSensorRead := by
  unfold screenPhase
  split <;> exact ⟨rfl, rfl, rfl, rfl, rfl⟩

/-- The failsafe controller writes only the fan duty and the alert LED. -/
theorem controlFailSafe_frame (s : DeviceState) :
    (controlFailSafe s).mq9Val = s.mq9Val ∧
    (controlFailSafe s).lastWiFiRetry = s.lastWiFiRetry ∧
    (controlFailSafe s).wifiLed = s.wifiLed ∧
    (controlFailSafe s).currentScreen = s.currentScreen ∧
    (controlFailSafe s).lastScreenChange = s.lastScreenChange := by
  unfold controlFailSafe
  split <;> exact ⟨rfl, rfl, rfl, rfl, rfl⟩

/-- The failsafe's two outcomes, as a case analysis on the threshold. -/
theorem controlFailSafe_cases (s : DeviceState) :
    (MQ9_FAILSAFE_THRESHOLD < s.mq9Val →
      controlFailSafe s = { s with currentFanSpeed := 255, mlLed := true }) ∧
    (¬ MQ9_FAILSAFE_THRESHOLD < s.mq9Val →
      controlFailSafe s = { s with currentFanSpeed := 0, mlLed := false }) := by
  constructor <;> intro h <;> unfold controlFailSafe
  · rw [if_pos h]
  · rw [if_neg h]

/-- The retry branch writes only `lastWiFiRetry`, and only per the guard. -/
theorem loopRetry_frame (e : LoopEnv) (s : DeviceState) :
    (loopRetry e s).currentFanSpeed = s.currentFanSpeed ∧
    (loopRetry e s).mlLed = s.mlLed ∧
    (loopRetry e s).wifiLed = s.wifiLed ∧
    (loopRetry e s).mq9Val = s.mq9Val ∧
    (loopRetry e s).lastWiFiRetry =
      (if wifiRetryInterval ≤ usub32 e.now s.lastWiFiRetry then e.now % U32
        else s.lastWiFiRetry) := by
  unfold loopRetry
  split <;> exact ⟨rfl, rfl, rfl, rfl, rfl⟩

/-- The fan duty after one whole loop iteration: untouched while WiFi is
up, otherwise the failsafe decision on the MQ9 value stored by this
iteration's (possible) sensor read. -/
theorem loopStep_fan (e : LoopEnv) (s : DeviceState) :
    (loopStep e s).currentFanSpeed =
      (if e.wifiConnected then s.currentFanSpeed
        else if MQ9_FAILSAFE_THRESHOLD < (sensorPhase e s).mq9Val then 255
          else 0) := by
  unfold loopStep loopTask3
  by_cases hw : e.wifiConnected
  · rw [if_pos hw, if_pos hw]
    show (screenPhase e (sensorPhase e s)).currentFanSpeed = _
    rw [(screenPhase_frame e _).2.1, (sensorPhase_frame e s).1]
  · rw [if_neg hw, if_neg hw]
    rw [(loopRetry_frame e _).1]
    have h9 : ({ screenPhase e (sensorPhase e s) with
        wifiLed := false } : DeviceState).mq9Val =
        (sensorPhase e s).mq9Val := (screenPhase_frame e _).1
    by_cases h : MQ9_FAILSAFE_THRESHOLD < (sensorPhase e s).mq9Val
    · rw [(controlFailSafe_cases _).1 (h9 ▸ h), if_pos h]
    · rw [(controlFailSafe_cases _).2 (h9 ▸ h), if_neg h]

/-- The alert LED after one whole loop iteration: untouched while WiFi is
up, otherwise asserted exactly on a threshold breach. -/
theorem loopStep_mlLed (e : LoopEnv) (s : DeviceState) :
    (loopStep e s).mlLed =
      (if e.wifiConnected then s.mlLed
        else decide (MQ9_FAILSAFE_THRESHOLD < (sensorPhase e s).mq9Val)) := by
  unfold loopStep loopTask3
  by_cases hw : e.wifiConnected
  · rw [if_pos hw, if_pos hw]
    show (screenPhase e (sensorPhase e s)).mlLed = _
    rw [(screenPhase_frame e _).2.2.1, (sensorPhase_frame e s).2.1]
  · rw [if_neg hw, if_neg hw]
    rw [(loopRetry_frame e _).2.1]
    have h9 : ({ screenPhase e (sensorPhase e s) with
        wifiLed := false } : DeviceState).mq9Val =
        (sensorPhase e s).mq9Val := (screenPhase_frame e _).1
    by_cases h : MQ9_FAILSAFE_THRESHOLD < (sensorPhase e s).mq9Val
    · rw [(controlFailSafe_cases _).1 (h9 ▸ h)]
      simp [h]
    · rw [(controlFailSafe_cases _).2 (h9 ▸ h)]
      simp [h]

/-- C1: in every scheduler iteration while disconnected, the failsafe
drives duty 255 and the alert LED exactly when the stored calibrated MQ9
value exceeds `MQ9_FAILSAFE_THRESHOLD` (3000), and duty 0 with the LED
cleared exactly otherwise; while connected, the iteration leaves both the
duty and the alert LED untouched. -/
theorem failsafe_gating (e : LoopEnv) (s : DeviceState) :
    (e.wifiConnected = false →
      (((loopStep e s).currentFanSpeed = 255 ∧ (loopStep e s).mlLed = true) ↔
        MQ9_FAILSAFE_THRESHOLD < (sensorPhase e s).mq9Val) ∧
      (((loopStep e s).currentFanSpeed = 0 ∧ (loopStep e s).mlLed = false) ↔
        ¬ MQ9_FAILSAFE_THRESHOLD < (sensorPhase e s).mq9Val)) ∧
    (e.wifiConnected = true →
      (loopStep e s).currentFanSpeed = s.currentFanSpeed ∧
      (loopStep e s).mlLed = s.mlLed) := by
  constructor
  · intro hw
    rw [loopStep_fan, loopStep_mlLed, hw]
    by_cases h : MQ9_FAILSAFE_THRESHOLD < (sensorPhase e s).mq9Val <;>
      simp [h]
  · intro hw
    rw [loopStep_fan, loopStep_mlLed, hw]
    exact ⟨if_pos rfl, if_pos rfl⟩

/-- Witness for C1: from the post-setup state with a stored MQ9 value of
3500, a disconnected iteration drives the fan at duty 255. -/
theorem failsafe_gating_witness :
    (loopStep
      { now := 100, wifiConnected := false, raw := ⟨0, 0, 0, 0⟩,
        dhtT := none, dhtH := none, wsConnected := false }
      { initialState with mq9Val := 3500, lastSensorRead := 100 }
      ).currentFanSpeed = 255 :=
  (((failsafe_gating
      { now := 100, wifiConnected := false, raw := ⟨0, 0, 0, 0⟩,
        dhtT := none, dhtH := none, wsConnected := false }
      { initialState with mq9Val := 3500, lastSensorRead := 100 }).1
    rfl).1.mpr (by decide)).1

/-- `constrain v 0 255` lands in `[0, 255]`. -/
theorem constrain_mem (v : Int) :
    0 ≤ constrain v 0 255 ∧ constrain v 0 255 ≤ 255 := by
  unfold constrain
  split_ifs <;> omega

/-- A recalibration does not touch the fan duty or the alert LED. -/
theorem calibrateSensors_keeps_fan (raw : RawReadings) (now : Nat)
    (s : DeviceState) :
    (calibrateSensors raw now s).currentFanSpeed = s.currentFanSpeed ∧
    (calibrateSensors raw now s).mlLed = s.mlLed :=
  ⟨rfl, rfl⟩

/-- The calibration branch on the literal `"calibrate"` command. -/
theorem applyCommand_calibrate (calRaw : RawReadings) (now : Nat)
    (s : DeviceState) :
    applyCommand (some "calibrate") calRaw now s =
      calibrateSensors calRaw now s := rfl

/-- The calibration branch on any other command string is a no-op. -/
theorem applyCommand_not_calibrate (c : String) (hc : c ≠ "calibrate")
    (calRaw : RawReadings) (now : Nat) (s : DeviceState) :
    applyCommand (some c) calRaw now s = s := by
  show (if c = "calibrate" then calibrateSensors calRaw now s else s) = s
  rw [if_neg hc]

/-- The offsets a recalibration installs, as a standalone equation set. -/
theorem calibrateSensors_offsets (raw : RawReadings) (now : Nat)
    (s : DeviceState) :
    (calibrateSensors raw now s).mq135Offset = max 0 (raw.mq135 - 200) ∧
    (calibrateSensors raw now s).mq8Offset = max 0 (raw.mq8 - 200) ∧
    (calibrateSensors raw now s).mq9Offset = max 0 (raw.mq9 - 200) ∧
    (calibrateSensors raw now s).dustOffset = max 0 (raw.dust - 200) :=
  ⟨rfl, rfl, rfl, rfl⟩

/-- C2: a decoded inbound frame whose `fan_speed` field holds the integer
`v` drives the fan at `constrain v 0 255` and asserts the alert LED exactly
when that duty is nonzero; when the frame also carries the `calibrate`
command, the recalibration happens as well, leaving the duty and LED from
the fan-speed handling in place. -/
theorem command_fan_clamp (v : Int) (cmd : Option String)
    (calRaw : RawReadings) (now : Nat) (s : DeviceState) :
    (handleText (some ⟨some v, cmd⟩) calRaw now s).currentFanSpeed =
      constrain v 0 255 ∧
    ((handleText (some ⟨some v, cmd⟩) calRaw now s).mlLed = true ↔
      constrain v 0 255 ≠ 0) ∧
    (cmd = some "calibrate" →
      (handleText (some ⟨some v, cmd⟩) calRaw now s).mq135Offset =
        max 0 (calRaw.mq135 - 200) ∧
      (handleText (some ⟨some v, cmd⟩) calRaw now s).mq8Offset =
        max 0 (calRaw.mq8 - 200) ∧
      (handleText (some ⟨some v, cmd⟩) calRaw now s).mq9Offset =
        max 0 (calRaw.mq9 - 200) ∧
      (handleText (some ⟨some v, cmd⟩) calRaw now s).dustOffset =
        max 0 (calRaw.dust - 200)) := by
  have hled : (decide (constrain v 0 255 > 0) = true) ↔
      constrain v 0 255 ≠ 0 := by
    have hmem := constrain_mem v
    rw [decide_eq_true_iff]
    omega
  have he : handleText (some ⟨some v, cmd⟩) calRaw now s =
      applyCommand cmd calRaw now (applyFanSpeed (some v) s) := rfl
  rw [he]
  match cmd with
  | none => exact ⟨rfl, hled, by simp⟩
  | some c =>
    by_cases hc : c = "calibrate"
    · subst hc
      rw [applyCommand_calibrate]
      exact ⟨by rw [(calibrateSensors_keeps_fan calRaw now _).1]; rfl,
        by rw [(calibrateSensors_keeps_fan calRaw now _).2]; exact hled,
        fun _ => calibrateSensors_offsets calRaw now _⟩
    · rw [applyCommand_not_calibrate c hc]
      exact ⟨rfl, hled, fun hcmd => absurd (Option.some_inj.mp hcmd) hc⟩

/-- Witness for C2 at the spec's scenario input `{"fan_speed": 400}`: the
applied duty is the clamped value 255. -/
theorem command_fan_clamp_witness :
    (handleText (some ⟨some 400, none⟩) ⟨0, 0, 0, 0⟩ 0
      initialState).currentFanSpeed = constrain 400 0 255 :=
  (command_fan_clamp 400 none ⟨0, 0, 0, 0⟩ 0 initialState).1

/-- C7: the fan duty lies in `[0, 255]` at initialization and after every
operation that can write it — a whole scheduler iteration (which runs the
failsafe while disconnected) and the inbound command handler — as well as
after the remaining state-mutating operations, so it is an invariant of the
device state. -/
theorem duty_range_invariant :
    dutyInv initialState ∧
    (∀ (e : LoopEnv) (s : DeviceState), dutyInv s → dutyInv (loopStep e s)) ∧
    (∀ (d : Option CommandDoc) (calRaw : RawReadings) (now : Nat)
      (s : DeviceState), dutyInv s → dutyInv (handleText d calRaw now s)) ∧
    (∀ (raw : RawReadings) (t h : Option Int) (s : DeviceState),
      dutyInv s → dutyInv (readAndSendSensors raw t h s)) ∧
    (∀ (raw : RawReadings) (now : Nat) (s : DeviceState),
      dutyInv s → dutyInv (calibrateSensors raw now s)) ∧
    (∀ s : DeviceState, dutyInv s → dutyInv (controlFailSafe s)) := by
  refine ⟨⟨(by omega : (0 : Int) ≤ 0), (by omega : (0 : Int) ≤ 255)⟩,
    ?_, ?_, ?_, ?_, ?_⟩
  · intro e s hs
    unfold dutyInv at *
    rw [loopStep_fan]
    split
    · exact hs
    · split <;> omega
  · intro d calRaw now s hs
    match d with
    | none => exact hs
    | some doc =>
      have h1 : dutyInv (applyFanSpeed doc.fanSpeed s) := by
        match hfs : doc.fanSpeed with
        | none => exact hs
        | some v => exact constrain_mem v
      show dutyInv
        (applyCommand doc.command calRaw now (applyFanSpeed doc.fanSpeed s))
      match doc.command with
      | none => exact h1
      | some c =>
        by_cases hc : c = "calibrate"
        · subst hc
          rw [applyCommand_calibrate]
          unfold dutyInv at *
          rw [(calibrateSensors_keeps_fan calRaw now _).1]
          exact h1
        · rw [applyCommand_not_calibrate c hc]
          exact h1
  · intro raw t h s hs
    exact hs
  · intro raw now s hs
    unfold dutyInv at *
    rw [(calibrateSensors_keeps_fan raw now s).1]
    exact hs
  · intro s hs
    unfold controlFailSafe
    split
    · exact ⟨(by omega : (0 : Int) ≤ 255), (by omega : (255 : Int) ≤ 255)⟩
    · exact ⟨(by omega : (0 : Int) ≤ 0), (by omega : (0 : Int) ≤ 255)⟩

/-- Task 3 while WiFi is up just asserts the WiFi LED. -/
theorem loopTask3_connected (e : LoopEnv) (s2 : DeviceState)
    (hw : e.wifiConnected = true) :
    loopTask3 e s2 = { s2 with wifiLed := true } := by
  unfold loopTask3
  rw [if_pos hw]

/-- Task 3 while WiFi is down runs the failsafe and the retry branch. -/
theorem loopTask3_disconnected (e : LoopEnv) (s2 : DeviceState)
    (hw : e.wifiConnected = false) :
    loopTask3 e s2 =
      loopRetry e (controlFailSafe { s2 with wifiLed := false }) := by
  unfold loopTask3
  rw [if_neg (by simp [hw])]

/-- After one loop iteration, `lastWiFiRetry` is the iteration's `millis()`
value exactly when a reconnect attempt fired, and untouched otherwise. -/
theorem loopStep_lastWiFiRetry (e : LoopEnv) (s : DeviceState) :
    (loopStep e s).lastWiFiRetry =
      (if retryFires e s then e.now % U32 else s.lastWiFiRetry) := by
  have hsr : (screenPhase e (sensorPhase e s)).lastWiFiRetry =
      s.lastWiFiRetry := by
    rw [(screenPhase_frame e _).2.2.2.1, (sensorPhase_frame e s).2.2.1]
  unfold loopStep
  by_cases hw : e.wifiConnected
  · rw [loopTask3_connected e _ hw]
    have hrf : retryFires e s = false := by simp [retryFires, hw]
    rw [hrf, if_neg (by simp)]
    exact hsr
  · have hw' : e.wifiConnected = false := by simpa using hw
    rw [loopTask3_disconnected e _ hw']
    rw [(loopRetry_frame e _).2.2.2.2]
    rw [(controlFailSafe_frame _).2.1]
    rw [show ({ screenPhase e (sensorPhase e s) with wifiLed := false } :
        DeviceState).lastWiFiRetry = s.lastWiFiRetry from hsr]
    by_cases hg : wifiRetryInterval ≤ usub32 e.now s.lastWiFiRetry
    · have hrf : retryFires e s = true := by simp [retryFires, hw', hg]
      rw [if_pos hg, hrf, if_pos rfl]
    · have hrf : retryFires e s = false := by simp [retryFires, hw', hg]
      rw [if_neg hg, hrf, if_neg (by simp)]

/-- Along any trace whose `millis()` values are monotone, starting from a
state whose `lastWiFiRetry` records the 32-bit image of a true time `t`
below every iteration time, the reconnect attempts are pairwise at least
`wifiRetryInterval` apart, and the first one is at least
`wifiRetryInterval` after `t`. -/
theorem attemptTimes_bounded (envs : List LoopEnv) :
    ∀ (s : DeviceState) (t : Nat),
    s.lastWiFiRetry = t % U32 →
    (∀ e ∈ envs, t ≤ e.now) →
    List.Pairwise (fun a b => a ≤ b) (envs.map LoopEnv.now) →
    List.Chain' (fun a b => a + wifiRetryInterval ≤ b)
      (attemptTimes envs s) ∧
    ∀ a ∈ attemptTimes envs s, t + wifiRetryInterval ≤ a := by
  induction envs with
  | nil =>
    intro s t _ _ _
    exact ⟨trivial, by intro a ha; cases ha⟩
  | cons e es ih =>
    intro s t h1 h2 h3
    rw [List.map_cons, List.pairwise_cons] at h3
    obtain ⟨hhead, htail⟩ := h3
    have hle_es : ∀ x ∈ es, e.now ≤ x.now := fun x hx =>
      hhead x.now (List.mem_map_of_mem _ hx)
    have ht_e : t ≤ e.now := h2 e (List.mem_cons_self e es)
    by_cases hf : retryFires e s = true
    · have hretry : (loopStep e s).lastWiFiRetry = e.now % U32 := by
        rw [loopStep_lastWiFiRetry, if_pos hf]
      obtain ⟨ihc, ihb⟩ := ih (loopStep e s) e.now hretry hle_es htail
      have hsep : t + wifiRetryInterval ≤ e.now := by
        have hg : wifiRetryInterval ≤ usub32 e.now s.lastWiFiRetry := by
          unfold retryFires at hf
          exact of_decide_eq_true (Bool.and_elim_right hf)
        rw [h1, usub32_mod_right] at hg
        exact usub32_guard_sound e.now t wifiRetryInterval ht_e
          (by unfold wifiRetryInterval U32; omega) hg
      have hat : attemptTimes (e :: es) s =
          e.now :: attemptTimes es (loopStep e s) := by
        show (if retryFires e s then e.now :: attemptTimes es (loopStep e s)
          else attemptTimes es (loopStep e s)) = _
        rw [if_pos hf]
      rw [hat]
      constructor
      · rw [List.chain'_cons']
        exact ⟨fun y hy => ihb y (List.mem_of_mem_head? hy), ihc⟩
      · intro a ha
        rcases List.mem_cons.mp ha with rfl | ha'
        · exact hsep
        · have := ihb a ha'
          omega
    · have hf' : retryFires e s = false := by
        revert hf
        cases retryFires e s <;> simp
      have hretry : (loopStep e s).lastWiFiRetry = s.lastWiFiRetry := by
        rw [loopStep_lastWiFiRetry, hf', if_neg (by simp)]
      have hat : attemptTimes (e :: es) s = attemptTimes es (loopStep e s) := by
        show (if retryFires e s then e.now :: attemptTimes es (loopStep e s)
          else attemptTimes es (loopStep e s)) = _
        rw [hf', if_neg (by simp)]
      rw [hat]
      exact ih (loopStep e s) t (hretry.trans h1)
        (fun x hx => h2 x (List.mem_cons_of_mem e hx)) htail

/-- C8: along any scheduler trace with monotone `millis()` values whose
stored retry timestamp is an in-range 32-bit time not after the trace,
consecutive reconnect attempts are at least `wifiRetryInterval` (15000) ms
apart, and no iteration with WiFi connected ever fires an attempt. -/
theorem reconnect_cadence (envs : List LoopEnv) (s : DeviceState)
    (hinit : s.lastWiFiRetry = s.lastWiFiRetry % U32)
    (hle : ∀ e ∈ envs, s.lastWiFiRetry ≤ e.now)
    (hmono : List.Pairwise (fun a b => a ≤ b) (envs.map LoopEnv.now)) :
    List.Chain' (fun a b => a + wifiRetryInterval ≤ b)
      (attemptTimes envs s) ∧
    ∀ (e : LoopEnv) (u : DeviceState), e.wifiConnected = true →
      retryFires e u = false := by
  constructor
  · exact (attemptTimes_bounded envs s s.lastWiFiRetry hinit hle hmono).1
  · intro e u hw
    unfold retryFires
    rw [hw]
    rfl

/-- Witness for C8 on the concrete offline trace `retryDemoEnvs`: attempts
fire at 16000 and 40000 (not at 20000, only 4000 ms after the first), and
those times satisfy the 15000 ms spacing. -/
theorem reconnect_cadence_witness :
    attemptTimes retryDemoEnvs initialState = [16000, 40000] ∧
    List.Chain' (fun a b => a + wifiRetryInterval ≤ b)
      (attemptTimes retryDemoEnvs initialState) :=
  ⟨by decide,
    (reconnect_cadence retryDemoEnvs initialState rfl (by decide)
      (by decide)).1⟩

/-- C5 fails on the code: triggering a calibration at `millis() = 10000`
sets `lastScreenChange = 12000`, a time in the future; on the very next
loop iteration, at `millis() = 10005`, the unsigned guard
`currentMillis - lastScreenChange >= 3000` wraps around to
`2^32 - 1995 ≥ 3000`, so the display page toggles away from the
calibration-feedback page only 5 ms after the trigger instead of holding
it for 2000 ms. -/
theorem screen_hold_bug :
    (calibrateSensors ⟨250, 210, 300, 190⟩ 10000
      initialState).lastScreenChange = 12000 ∧
    usub32 10005 12000 = 4294965301 ∧
    initialState.currentScreen = 1 ∧
    (loopStep
      { now := 10005, wifiConnected := true, raw := ⟨0, 0, 0, 0⟩,
        dhtT := none, dhtH := none, wsConnected := true }
      (calibrateSensors ⟨250, 210, 300, 190⟩ 10000
        initialState)).currentScreen = 2 := by
  refine ⟨by decide, by decide, by decide, by decide⟩

end AqiNode
